import Mathlib

/-!
Verification of the drizzlepac pipeline orchestration layer: a shallow
embedding of `lib/buildmask.py`, `lib/irData.py` and
`drizzlepac/runaligndriz.py`, with theorems settling the specified
behaviour of the mask builder, the IR count-rate probe, and the
alignment-verification state machine.
-/

namespace DrizzleSpec

/-! ## Mask builder (`lib/buildmask.py`)

`buildMask` (lines 79-84): elementwise over the DQ array,
`_maskarr = N.bitwise_or(dqarr, [bitvalue])` and then
`N.choose(N.greater(_maskarr, bitvalue), (1, 0))`: a pixel whose OR with
the bit selector exceeds the selector maps to 0, every other pixel to 1.
With `bitvalue == None` the result is `(dqarr * 0.0) + 1.0`, an all-ones
array of the same shape.  A 2-D numpy array is modelled as a list of rows
of natural numbers. -/

def buildMask (dqarr : List (List Nat)) (bitvalue : Option Nat) : List (List Nat) :=
  match bitvalue with
  | none => dqarr.map (fun row => row.map (fun _ => 1))
  | some bitv => dqarr.map (fun row => row.map (fun d =>
      if bitv < d ||| bitv then 0 else 1))

/-- Pixel lookup in a 2-D array modelled as a list of rows. -/
def pixel (arr : List (List Nat)) (i j : Nat) : Option Nat :=
  (arr.get? i).bind (fun row => row.get? j)

/-- Elementwise maps commute with pixel lookup. -/
theorem pixel_map (f : Nat → Nat) (dq : List (List Nat)) (i j : Nat) :
    pixel (dq.map (fun row => row.map f)) i j = (pixel dq i j).map f := by
  simp only [pixel, List.get?_eq_getElem?, List.getElem?_map]
  cases h : dq[i]? <;> simp [List.getElem?_map]

/-- The bit selector is always a lower bound of the OR with any DQ value. -/
theorem le_or_selector (d bitv : Nat) : bitv ≤ d ||| bitv :=
  Nat.le_of_testBit (fun i h => by simp [Nat.testBit_or, h])

/-- The OR with the selector exceeds the selector exactly when the DQ value
has a set bit that the selector does not include. -/
theorem lt_or_iff_testBit (d bitv : Nat) :
    bitv < d ||| bitv ↔ ∃ k, d.testBit k = true ∧ bitv.testBit k = false := by
  constructor
  · intro h
    by_contra hc
    push_neg at hc
    have heq : d ||| bitv = bitv := Nat.eq_of_testBit_eq (fun i => by
      rw [Nat.testBit_or]
      cases hd : d.testBit i
      · simp
      · have hb := hc i hd
        simp only [Bool.not_eq_false] at hb
        simp [hb])
    omega
  · rintro ⟨k, hd, hb⟩
    rcases Nat.lt_or_ge bitv (d ||| bitv) with h | h
    · exact h
    · exfalso
      have heq : d ||| bitv = bitv := Nat.le_antisymm h (le_or_selector d bitv)
      have := congrArg (fun n => Nat.testBit n k) heq
      simp [Nat.testBit_or, hd, hb] at this

/-- Helper: the pixel value of the selector-masked array. -/
theorem buildMask_some_pixel (dq : List (List Nat)) (bitv i j d : Nat)
    (h : pixel dq i j = some d) :
    pixel (buildMask dq (some bitv)) i j
      = some (if bitv < d ||| bitv then 0 else 1) := by
  rw [buildMask, pixel_map, h, Option.map_some']

/-- Helper: the selector-masked pixel is 0 exactly when the OR exceeds the
selector. -/
theorem buildMask_some_pixel_zero_iff (dq : List (List Nat)) (bitv i j d : Nat)
    (h : pixel dq i j = some d) :
    pixel (buildMask dq (some bitv)) i j = some 0 ↔ bitv < d ||| bitv := by
  rw [buildMask_some_pixel dq bitv i j d h]
  by_cases hlt : bitv < d ||| bitv <;> simp [hlt]

/-- Claim C5: for every DQ array, `buildMask dq none` is an all-ones array of
the same shape as `dq`; and for any bit selector, the mask pixel is `0` if and
only if `(dq[p] ||| bit) > bit`.  Follows `buildMask` (buildmask.py lines
79-84). -/
theorem buildMask_pixel_spec :
    (∀ dq i j d, pixel dq i j = some d → pixel (buildMask dq none) i j = some 1) ∧
    (∀ dq bitv, (buildMask dq none).length = dq.length ∧
      (buildMask dq (some bitv)).length = dq.length ∧
      (∀ i, ((buildMask dq none).get? i).map List.length = (dq.get? i).map List.length) ∧
      (∀ i, ((buildMask dq (some bitv)).get? i).map List.length
          = (dq.get? i).map List.length)) ∧
    (∀ dq bitv i j d, pixel dq i j = some d →
      pixel (buildMask dq (some bitv)) i j = some (if bitv < d ||| bitv then 0 else 1) ∧
      (pixel (buildMask dq (some bitv)) i j = some 0 ↔ bitv < d ||| bitv)) := by
  refine ⟨?_, ?_, ?_⟩
  · intro dq i j d h
    rw [buildMask, pixel_map, h, Option.map_some']
  · intro dq bitv
    refine ⟨by simp [buildMask], by simp [buildMask], ?_, ?_⟩ <;>
      (intro i; simp only [buildMask, List.get?_eq_getElem?, List.getElem?_map];
       cases dq[i]? <;> simp)
  · intro dq bitv i j d h
    exact ⟨buildMask_some_pixel dq bitv i j d h,
           buildMask_some_pixel_zero_iff dq bitv i j d h⟩

/-- Witness for C5 at a concrete DQ array: pixel value 2 with no selector maps
to 1, and pixel value 5 with selector 4 maps to 0 since `5 ||| 4 = 5 > 4`. -/
theorem buildMask_pixel_spec_witness :
    pixel (buildMask [[5, 2]] none) 0 1 = some 1 ∧
    (pixel (buildMask [[5, 2]] (some 4)) 0 0 = some 0 ↔ 4 < 5 ||| 4) :=
  ⟨buildMask_pixel_spec.1 [[5, 2]] 0 1 2 rfl,
   (buildMask_pixel_spec.2.2 [[5, 2]] 4 0 0 5 rfl).2⟩

/-- Counterexample to claim C6 as stated: the claim reads the selector as the
set of bad-pixel bits (pixel 0 exactly when `dq[p] &&& bit ≠ 0`), but the code
masks a pixel exactly when `dq[p]` has a set bit OUTSIDE the selector.  At
`dq = [[1]]`, `bit = 1` the DQ value shares its only set bit with the selector,
yet the code produces mask value 1, not 0. -/
theorem buildMask_shares_bit_cex :
    ¬ (∀ dq bitv i j d, pixel dq i j = some d →
        (pixel (buildMask dq (some bitv)) i j = some 0 ↔ d &&& bitv ≠ 0)) := by
  intro h
  have h1 := (h [[1]] 1 0 0 1 rfl).2 (by decide)
  rw [show pixel (buildMask [[1]] (some 1)) 0 0 = some 1 from rfl] at h1
  exact absurd (Option.some.inj h1) one_ne_zero

/-- Claim C6 (amended): for every DQ array and non-null bit selector the mask
is a same-shape binary array in which a pixel is 0 exactly when the DQ value
has a set bit that is NOT among the selector bits (the selector names the
acceptable DQ flags); otherwise the pixel is 1. -/
theorem buildMask_zero_iff_outside_selector :
    ∀ dq bitv i j d, pixel dq i j = some d →
      (pixel (buildMask dq (some bitv)) i j = some 0 ↔
        ∃ k, d.testBit k = true ∧ bitv.testBit k = false) ∧
      (pixel (buildMask dq (some bitv)) i j = some 0 ∨
       pixel (buildMask dq (some bitv)) i j = some 1) := by
  intro dq bitv i j d h
  constructor
  · rw [buildMask_some_pixel_zero_iff dq bitv i j d h]
    exact lt_or_iff_testBit d bitv
  · rw [buildMask_some_pixel dq bitv i j d h]
    by_cases hlt : bitv < d ||| bitv <;> simp [hlt]

/-- Witness for the amended C6 at a concrete input: DQ value 2 with selector 1
has bit 1 set outside the selector, so the mask pixel is 0. -/
theorem buildMask_zero_iff_outside_selector_witness :
    pixel (buildMask [[2]] (some 1)) 0 0 = some 0 :=
  (buildMask_zero_iff_outside_selector [[2]] 1 0 0 2 rfl).1.mpr
    ⟨1, by decide, by decide⟩

/-! ## WFPC2 shadow-mask binning (`buildShadowMaskImage`, lines 216-226)

The unbinned shadow mask `maskarr` is an 800 x 800 array of 0/1 values.
When binning is requested the source takes the strided VIEW
`bmaskarr = maskarr[::2, ::2]` and multiplies it in place by the three
shifted subsamples `maskarr[1::2, ::2]`, `maskarr[::2, 1::2]` and
`maskarr[1::2, 1::2]` in that order.  Because `bmaskarr` aliases
`maskarr`, each in-place step writes the even-row/even-column entries of
`maskarr`; the embedding below tracks the array state after each step as a
function on indices, so the aliasing is modelled exactly. -/

/-- Side length of the unbinned WFPC2 shadow mask (source: shape (800, 800)). -/
def shadowDim : Nat := 800

/-- Number of indices selected by a stride-2 slice of a length-`n` axis
(`range(0, n, 2)` has `ceil(n / 2)` elements). -/
def sliceLen (n : Nat) : Nat := (n + 1) / 2

/-- State of `maskarr` after `bmaskarr *= maskarr[1::2, ::2]`: the entry at an
even row and even column (the view) is multiplied by the entry one row below. -/
def binStep1 (m : Nat → Nat → Nat) : Nat → Nat → Nat := fun i j =>
  if i % 2 = 0 ∧ j % 2 = 0 then m i j * m (i + 1) j else m i j

/-- State after `bmaskarr *= maskarr[::2, 1::2]`: the view entry is multiplied
by the current entry one column to the right. -/
def binStep2 (m : Nat → Nat → Nat) : Nat → Nat → Nat := fun i j =>
  if i % 2 = 0 ∧ j % 2 = 0 then m i j * m i (j + 1) else m i j

/-- State after `bmaskarr *= maskarr[1::2, 1::2]`: the view entry is multiplied
by the current diagonal neighbour. -/
def binStep3 (m : Nat → Nat → Nat) : Nat → Nat → Nat := fun i j =>
  if i % 2 = 0 ∧ j % 2 = 0 then m i j * m (i + 1) (j + 1) else m i j

/-- The binned mask finally copied out of the view: entry `(a, b)` reads
position `(2a, 2b)` of the updated `maskarr`. -/
def binnedShadowMask (m : Nat → Nat → Nat) (a b : Nat) : Nat :=
  binStep3 (binStep2 (binStep1 m)) (2 * a) (2 * b)

/-- The three in-place strided updates only ever write even-row/even-column
entries while reading odd-parity positions, so the binned value is the plain
product of the four original subsample values. -/
theorem binnedShadowMask_eq (m : Nat → Nat → Nat) (a b : Nat) :
    binnedShadowMask m a b
      = m (2 * a) (2 * b) * m (2 * a + 1) (2 * b)
          * m (2 * a) (2 * b + 1) * m (2 * a + 1) (2 * b + 1) := by
  have h1 : (2 * a) % 2 = 0 := by omega
  have h2 : (2 * b) % 2 = 0 := by omega
  have h3 : (2 * b + 1) % 2 = 1 := by omega
  have h4 : (2 * a + 1) % 2 = 1 := by omega
  simp only [binnedShadowMask, binStep3, binStep2, binStep1, h1, h2, h3, h4]
  norm_num [Nat.mul_assoc]

/-- Claim C8: the binned shadow mask has exactly half the width and height of
the unbinned 800 x 800 mask (rounded down), and a binned pixel is 1 exactly
when all four unbinned subsample pixels `(2a, 2b)`, `(2a+1, 2b)`, `(2a, 2b+1)`,
`(2a+1, 2b+1)` are 1, the in-place updates through the strided view
notwithstanding. -/
theorem binnedShadowMask_spec :
    sliceLen shadowDim = shadowDim / 2 ∧
    sliceLen shadowDim = 400 ∧
    (∀ m : Nat → Nat → Nat, ∀ a b,
      binnedShadowMask m a b = 1 ↔
        m (2 * a) (2 * b) = 1 ∧ m (2 * a + 1) (2 * b) = 1 ∧
        m (2 * a) (2 * b + 1) = 1 ∧ m (2 * a + 1) (2 * b + 1) = 1) := by
  refine ⟨rfl, rfl, ?_⟩
  intro m a b
  rw [binnedShadowMask_eq]
  constructor
  · intro h
    have e1 := Nat.eq_one_of_mul_eq_one_left h
    have h2 := Nat.eq_one_of_mul_eq_one_right h
    have e2 := Nat.eq_one_of_mul_eq_one_left h2
    have h3 := Nat.eq_one_of_mul_eq_one_right h2
    have e3 := Nat.eq_one_of_mul_eq_one_left h3
    have e4 := Nat.eq_one_of_mul_eq_one_right h3
    exact ⟨e4, e3, e2, e1⟩
  · rintro ⟨e1, e2, e3, e4⟩
    rw [e1, e2, e3, e4]

/-! ## IR count-rate probe (`lib/irData.py`, `IRInputImage.isCountRate`)

The method guards on `self.header.has_key` with the key BUNIT but then
reads the header at the misspelled key BUINT: a plain dictionary access
that raises `KeyError` when the key is absent.  When the read succeeds it returns `True`
if the value contains a slash, otherwise control falls off the end of the
`if` branch and Python returns `None`.  The header is modelled as an
association list and the four possible outcomes as an explicit result type. -/

/-- The four ways `isCountRate` can come back to its caller. -/
inductive CountRateResult where
  | isTrue
  | isFalse
  | fallNone
  | keyError
deriving DecidableEq

/-- `header.has_key(k)` on the modelled FITS header. -/
def hasKey (header : List (String × String)) (k : String) : Bool :=
  header.any (fun p => p.1 == k)

/-- `header[k]` as a partial lookup; `none` models the `KeyError` raise. -/
def lookupKey (header : List (String × String)) (k : String) : Option String :=
  (header.find? (fun p => p.1 == k)).map (fun p => p.2)

/-- `IRInputImage.isCountRate` (irData.py lines 27-39): note the guard tests
`BUNIT` while the body reads `BUINT`. -/
def isCountRate (header : List (String × String)) : CountRateResult :=
  if hasKey header "BUNIT" then
    match lookupKey header "BUINT" with
    | none => .keyError
    | some v => if v.data.contains '/' then .isTrue else .fallNone
  else .isFalse

/-- Counterexample to claim C10 as stated: `isCountRate` CAN return `True`,
and a header containing `BUNIT` need not raise `KeyError`, whenever the header
also carries the misspelled key `BUINT` with a slash in its value. -/
theorem isCountRate_never_true_cex :
    ¬ (∀ header, hasKey header "BUNIT" = true →
        isCountRate header = CountRateResult.keyError) := by
  intro h
  have := h [("BUNIT", "COUNTS"), ("BUINT", "ELECTRONS/S")] (by decide)
  rw [show isCountRate [("BUNIT", "COUNTS"), ("BUINT", "ELECTRONS/S")]
        = CountRateResult.isTrue from rfl] at this
  cases this

/-- Claim C10 (amended): `isCountRate` raises `KeyError` for every header that
contains `BUNIT` but lacks the misspelled `BUINT` (in particular for every
well-formed FITS header with a units keyword); it returns `False` for every
header lacking `BUNIT`; and when both keys are present it returns `True` if
the `BUINT` value contains a slash and otherwise falls through returning
`None`. -/
theorem isCountRate_spec :
    (∀ header, hasKey header "BUNIT" = true → lookupKey header "BUINT" = none →
        isCountRate header = CountRateResult.keyError) ∧
    (∀ header, hasKey header "BUNIT" = false →
        isCountRate header = CountRateResult.isFalse) ∧
    (∀ header v, hasKey header "BUNIT" = true → lookupKey header "BUINT" = some v →
        v.data.contains '/' = true → isCountRate header = CountRateResult.isTrue) ∧
    (∀ header v, hasKey header "BUNIT" = true → lookupKey header "BUINT" = some v →
        v.data.contains '/' = false → isCountRate header = CountRateResult.fallNone) := by
  refine ⟨?_, ?_, ?_, ?_⟩
  · intro header h1 h2; simp [isCountRate, h1, h2]
  · intro header h1; simp [isCountRate, h1]
  · intro header v h1 h2 h3; simp at h3; simp [isCountRate, h1, h2, h3]
  · intro header v h1 h2 h3; simp at h3; simp [isCountRate, h1, h2, h3]

/-- Witness for the amended C10: a realistic WFC3/IR header carrying only the
correctly spelled `BUNIT` hits the `KeyError` path. -/
theorem isCountRate_spec_witness :
    isCountRate [("BUNIT", "ELECTRONS/S")] = CountRateResult.keyError :=
  isCountRate_spec.1 [("BUNIT", "ELECTRONS/S")] (by decide) rfl

/-! ## Mask file construction error handling (`buildMaskImage`,
`buildShadowMaskImage`)

The file-level wrappers around `buildMask` are modelled by their
control-flow skeleton over an abstract filesystem (the set of existing
files plus the warnings printed so far); the environment parameter says at
which point, if any, the Python body raised.

`buildMaskImage` (lines 87-152): removes any old mask file, then inside a
bare `try` builds and writes the mask; its `except` closes the input,
deletes a partially written `maskname` when present, prints a warning
naming `rootname`, and returns `None`.

`buildShadowMaskImage` (lines 186-288) has two handlers.  The
template-creation handler (lines 237-238) is just `return None`: it neither
deletes a partially written template nor prints anything.  The DQ-branch
handler (lines 275-284) deletes the partial mask file but then builds its
warning string from the name `rootname`, which is NOT bound in this
function (its parameter is `dqfile`), so the handler itself raises
`NameError` before printing or returning. -/

/-- Abstract filesystem: existing file names plus printed warnings. -/
structure MaskFS where
  files : List String
  printed : List String
deriving DecidableEq

/-- `fileutil.removeFile` / `os.remove` guarded by `fileutil.findFile`. -/
def removeIfPresent (fs : MaskFS) (name : String) : MaskFS :=
  { fs with files := fs.files.filter (fun f => f ≠ name) }

/-- Where, if anywhere, the `try` body of `buildMaskImage` raised. -/
inductive MaskBodyOutcome where
  | success
  | failBeforeWrite
  | failAfterPartialWrite
deriving DecidableEq

/-- The warning printed by the `buildMaskImage` handler (line 146). -/
def maskWarning (rootname : String) : String :=
  "\nWarning: Problem creating MASK file for " ++ rootname ++ ".\n"

/-- `buildMaskImage` (buildmask.py lines 87-152), returning the mask name on
success and `none` after a handled failure. -/
def buildMaskImage (rootname output : String) (body : MaskBodyOutcome)
    (fs : MaskFS) : Option String × MaskFS :=
  let fs := removeIfPresent fs output
  match body with
  | .success => (some output, { fs with files := fs.files ++ [output] })
  | .failBeforeWrite =>
      (none, { fs with printed := fs.printed ++ [maskWarning rootname] })
  | .failAfterPartialWrite =>
      let fs := { fs with files := fs.files ++ [output] }
      let fs := removeIfPresent fs output
      (none, { fs with printed := fs.printed ++ [maskWarning rootname] })

/-- Where, if anywhere, `buildShadowMaskImage` raised. -/
inductive ShadowOutcome where
  | success
  | templateFail (partialTemplateWritten : Bool)
  | dqBranchFail (partialMaskWritten : Bool)
deriving DecidableEq

/-- Result of `buildShadowMaskImage`: the mask name, a `None` return, or an
escaped `NameError` from the broken DQ-branch handler. -/
inductive ShadowResult where
  | name (s : String)
  | nullResult
  | raisedNameError
deriving DecidableEq

/-- The warning string the DQ-branch handler of `buildShadowMaskImage` TRIES
to build at line 281; evaluating `rootname` there raises `NameError` first. -/
def dqMaskWarning (rootname : String) : String :=
  "\nWarning: Problem creating DQMASK file for " ++ rootname ++ ".\n"

/-- `buildShadowMaskImage` (buildmask.py lines 186-288), control-flow
skeleton over the abstract filesystem. -/
def buildShadowMaskImage (detnum maskname : String) (outcome : ShadowOutcome)
    (fs : MaskFS) : ShadowResult × MaskFS :=
  let templateName := "wfpc2_inmask" ++ detnum ++ ".fits"
  let fs := removeIfPresent fs maskname
  match outcome with
  | .success => (.name maskname, { fs with files := fs.files ++ [maskname] })
  | .templateFail partialW =>
      let fs := if partialW then { fs with files := fs.files ++ [templateName] }
                else fs
      (.nullResult, fs)
  | .dqBranchFail partialW =>
      let fs := if partialW then { fs with files := fs.files ++ [maskname] }
                else fs
      let fs := removeIfPresent fs maskname
      (.raisedNameError, fs)

/-- Claim C7 holds for `buildMaskImage` but fails for `buildShadowMaskImage`:
this theorem evaluates the code at the failing inputs.  `buildMaskImage` with a
failure after a partial write deletes the output, prints the warning naming
the input, and returns `None`.  The `buildShadowMaskImage` DQ-branch handler
deletes the partial file but then raises `NameError` instead of warning and
returning `None`, and its template handler returns `None` while leaving the
partial template file behind and printing nothing. -/
theorem mask_error_handling_demo :
    (buildMaskImage "j8cw03f4q_flt.fits" "j8cw03f4q_mask.fits"
        .failAfterPartialWrite ⟨[], []⟩
      = (none, ⟨[], [maskWarning "j8cw03f4q_flt.fits"]⟩)) ∧
    (buildShadowMaskImage "1" "u40x010hm_inmask1.fits"
        (.dqBranchFail true) ⟨[], []⟩
      = (.raisedNameError, ⟨[], []⟩)) ∧
    (buildShadowMaskImage "1" "u40x010hm_inmask1.fits"
        (.templateFail true) ⟨[], []⟩
      = (.nullResult, ⟨["wfpc2_inmask1.fits"], []⟩)) := by
  refine ⟨?_, ?_, ?_⟩ <;> rfl

/-! ## Alignment verification (`drizzlepac/runaligndriz.py`)

`verify_alignment` (lines 538-693) stages the inputs into a per-mode temp
directory, runs the mode-specific WCS step, drizzles, scores the result,
and copies the products back to the parent directory when verification
succeeded; a `finally` clause restores the working directory.  `process`
(lines 345-381) sequences the pipeline-default, a-priori and (optionally)
a-posteriori attempts.

The embedding keeps the observable state — current working directory,
which attempt last copied its products to the parent directory, and the
trailer-file lines — and abstracts the external collaborators
(`updatewcs`, `alignimages.perform_align`, astrodrizzle,
`evaluate_focus`, `compute_similarity`) into an environment recording
their outcomes for one attempt.  Python exceptions are explicit result
values; the only modelled raise points are the ones present in the
source: staging (`os.makedirs` / `shutil.copy`, before `parent_dir` is
bound at line 570), the a-priori `updatewcs` call, the a-posteriori
`perform_align` call, and astrodrizzle inside `run_driz`. -/

/-- The three alignment attempt modes sequenced by `process`. -/
inductive Mode where
  | pipelineDefault
  | apriori
  | aposteriori
deriving DecidableEq

/-- The per-mode temp directory name (`tmpdir` arguments at lines 348, 356,
375). -/
def tmpdirOf : Mode → String
  | .pipelineDefault => "pipeline-default"
  | .apriori => "apriori"
  | .aposteriori => "aposteriori"

/-- One row of the table returned by `alignimages.perform_align`. -/
structure AlignRow where
  imageName : String
  status : Nat
  catalog : String
  headerletFile : String
deriving DecidableEq

/-- Outcomes of the external collaborators during one alignment attempt. -/
structure AttemptEnv where
  stagingRaises : Bool
  wcsRaises : Bool
  alignOutcome : Option (List AlignRow)
  hasFlc : Bool
  drizRaises : Bool
  focusOK : Bool
  simIndx : ℚ
deriving DecidableEq

/-- Observable filesystem/process state threaded through the attempts. -/
structure FS where
  cwd : String
  parentProducts : Option Mode
  trailer : List String
deriving DecidableEq

/-- Python exceptions distinguished by the embedding. -/
inductive Exc where
  | osError
  | wcsError
  | drizError
  | nameError
deriving DecidableEq

/-- What `verify_alignment` hands back to `process`: the truthy focus-dict
list tagged with its mode, the `None` of an a-posteriori alignment failure,
or an escaped exception. -/
inductive VerifyResult where
  | focusDicts (m : Mode)
  | nullResult
  | raised (e : Exc)
deriving DecidableEq

/-- Append lines to the trailer file (`_updateTrlFile` / `_appendTrlFile`). -/
def addTrl (fs : FS) (msgs : List String) : FS :=
  { fs with trailer := fs.trailer ++ msgs }

/-- Per-row success message (line 600). -/
def successAlignMsg (r : AlignRow) : String :=
  "Successfully aligned " ++ r.imageName ++ " to " ++ r.catalog
    ++ " astrometric frame"

/-- Per-row failure message (line 603). -/
def couldNotAlignMsg (name : String) : String :=
  "Could not align " ++ name ++ " to absolute astrometric frame"

/-- Messages written on an exception from `perform_align` (lines 609-610). -/
def alignExcMsg : List String :=
  ["EXCEPTION encountered in alignimages...",
   "   No correction to absolute astrometric frame applied!"]

/-- The compromise warning of the `force_alignment` branch (line 671). -/
def keepWarningMsg : String :=
  "  WARNING: \nKEEPING potentially compromised astrometry solution!"

/-- The alternative message of the non-forced branch (line 673). -/
def revertMsg : String :=
  "  Reverting to pipeline-default WCS-based alignment."

/-- Headerlet application message for one aligned row (lines 632-635). -/
def headerletMsgOf (r : AlignRow) : String :=
  if r.headerletFile ≠ "None" then
    "Applying headerlet " ++ r.headerletFile ++ " as Primary WCS"
  else
    "No absolute astrometric headerlet applied"

/-- The `for row in align_table` loop (lines 598-605).  On success the
accumulated `trlmsg` is returned for the later flush at line 619; on the
first row with nonzero status the source executes `return None`, so the
accumulated messages — the just-added failure line included — are dropped
with the local variable. -/
def alignLoop : List AlignRow → List String → Option (List String)
  | [], trlmsg => some trlmsg
  | r :: rs, trlmsg =>
    if r.status = 0 then
      alignLoop rs (trlmsg ++ [successAlignMsg r])
    else
      let _dropped := trlmsg ++ [couldNotAlignMsg r.imageName]
      none

/-- Drizzle plus scoring plus conditional copy-back (lines 643-687): runs
`run_driz`, evaluates the focus verdict, folds in the similarity check for
non-default modes, copies products to the parent directory only when
`alignment_verified` remained true, and flushes the verification messages. -/
def drizToAccept (mode : Mode) (force_alignment : Bool) (env : AttemptEnv)
    (fs : FS) : VerifyResult × FS :=
  if env.drizRaises then
    (.raised .drizError,
     addTrl fs ["ERROR: Could not complete astrodrizzle processing"])
  else
    let alignment_verified := env.focusOK
    let msgs := ["Verification of alignment started",
                 if alignment_verified then
                   "Focus verification indicated that alignment SUCCEEDED."
                 else
                   "Focus verification indicated that alignment FAILED."]
    let scored :=
      if mode = .pipelineDefault then (alignment_verified, msgs)
      else if 1 < env.simIndx then
        (false,
         msgs ++ ["Astrometry alignment FAILED with a similarity index"]
              ++ [if force_alignment then keepWarningMsg else revertMsg])
      else
        (alignment_verified,
         msgs ++ ["Alignment appeared to succeed based on similarity index"])
    let fs := if scored.1 then { fs with parentProducts := some mode } else fs
    let msgs := scored.2
      ++ (if scored.1 then ["Saving products with new alignment."] else [])
      ++ ["Verification of alignment completed"]
    (.focusDicts mode, addTrl fs msgs)

/-- The mode-specific body of the `try` block after the chdir (lines
573-687). -/
def verifyBody (mode : Mode) (force_alignment : Bool) (env : AttemptEnv)
    (fs : FS) : VerifyResult × FS :=
  match mode with
  | .pipelineDefault => drizToAccept mode force_alignment env fs
  | .apriori =>
    if env.wcsRaises then (.raised .wcsError, fs)
    else drizToAccept mode force_alignment env fs
  | .aposteriori =>
    let fs := addTrl fs ["Align_to_GAIA started"]
    match env.alignOutcome with
    | none => (.nullResult, addTrl fs alignExcMsg)
    | some rows =>
      match alignLoop rows [] with
      | none => (.nullResult, fs)
      | some trlmsg =>
        let fs := addTrl fs ["perform_align log"]
        let fs := addTrl fs trlmsg
        let fs := addTrl fs
          ((if env.hasFlc ∧ rows ≠ [] then rows.map headerletMsgOf else [])
            ++ ["Align_to_GAIA completed"])
        drizToAccept mode force_alignment env fs

/-- Result of the `try` block together with the state of the local
`parent_dir`, which stays unbound when staging raised before line 570. -/
structure TryOut where
  result : VerifyResult
  fs : FS
  parentDirLocal : Option String
deriving DecidableEq

/-- The `try` block of `verify_alignment` (lines 546-687): staging, binding
of `parent_dir`, chdir into the temp directory, then the body. -/
def verifyTry (mode : Mode) (force_alignment : Bool) (env : AttemptEnv)
    (fs : FS) : TryOut :=
  if env.stagingRaises then
    ⟨.raised .osError, fs, none⟩
  else
    let parent_dir := fs.cwd
    let out := verifyBody mode force_alignment env
      { fs with cwd := tmpdirOf mode }
    ⟨out.1, out.2, some parent_dir⟩

/-- `verify_alignment` (lines 538-693): the `try` block followed by the
`finally: os.chdir(parent_dir)`.  When `parent_dir` was never bound the
`finally` clause itself raises `NameError` (an `UnboundLocalError`), which
replaces whatever the body raised. -/
def verify_alignment (mode : Mode) (force_alignment : Bool) (env : AttemptEnv)
    (fs : FS) : VerifyResult × FS :=
  let t := verifyTry mode force_alignment env fs
  match t.parentDirLocal with
  | none => (.raised .nameError, t.fs)
  | some p => (t.result, { t.fs with cwd := p })

/-- Environment for one whole `process` run: one collaborator environment
per attempt plus the two relevant flags. -/
structure ProcEnv where
  envDefault : AttemptEnv
  envApriori : AttemptEnv
  envApost : AttemptEnv
  align_to_gaia : Bool
  force_alignment : Bool
deriving DecidableEq

/-- Whether a `verify_alignment` outcome is an escaped exception. -/
def isRaised : VerifyResult → Bool
  | .raised _ => true
  | _ => false

/-- The `if align_xxx: align_dicts = align_xxx` update of `process`
(lines 360-361, 379-380): a truthy focus-dict list replaces the held value,
the `None` of a failed a-posteriori attempt leaves it alone. -/
def dictTag : VerifyResult → Option Mode → Option Mode
  | .focusDicts m, _ => some m
  | _, prev => prev

/-- The attempt-sequencing part of `process` (lines 345-381): run the
pipeline-default attempt, always adopt its return value as `align_dicts`,
then run the a-priori attempt and the optional a-posteriori attempt,
adopting each truthy return value.  A raised exception propagates (there is
no handler in `process`), modelled by `none`. -/
def processAttempts (p : ProcEnv) (fs : FS) : Option (Option Mode × FS) :=
  let o0 := verify_alignment .pipelineDefault p.force_alignment p.envDefault fs
  if isRaised o0.1 then none else
  let ad0 := dictTag o0.1 none
  let o1 := verify_alignment .apriori p.force_alignment p.envApriori o0.2
  if isRaised o1.1 then none else
  let ad1 := dictTag o1.1 ad0
  if p.align_to_gaia then
    let o2 := verify_alignment .aposteriori p.force_alignment p.envApost o1.2
    if isRaised o2.1 then none else
    some (dictTag o2.1 ad1, o2.2)
  else
    some (ad1, o1.2)

/-- Whether the a-posteriori catalog-alignment step succeeded for every file
(reaching line 614 instead of returning `None`). -/
def alignStepOK (env : AttemptEnv) : Bool :=
  match env.alignOutcome with
  | some rows => rows.all (fun r => decide (r.status = 0))
  | none => false

/-- The acceptance predicate of one attempt, read off the scoring code
(lines 650-676): the focus verdict, and for non-default modes a similarity
index not exceeding 1.  The `force_alignment` flag plays no role because the
code never restores `alignment_verified` in the force branch. -/
def attemptAccepted (mode : Mode) (env : AttemptEnv) : Bool :=
  match mode with
  | .pipelineDefault => env.focusOK
  | .apriori => env.focusOK && decide (env.simIndx ≤ 1)
  | .aposteriori => alignStepOK env && env.focusOK && decide (env.simIndx ≤ 1)

/-- Modelled from the spec: the last-accepted-attempt rule of the top-level
driver, folding the acceptance predicate over the attempt sequence
default, a-priori, a-posteriori-if-enabled. -/
def lastAcceptedTag (p : ProcEnv) (init : Option Mode) : Option Mode :=
  let a0 := if attemptAccepted .pipelineDefault p.envDefault
            then some Mode.pipelineDefault else init
  let a1 := if attemptAccepted .apriori p.envApriori
            then some Mode.apriori else a0
  if p.align_to_gaia then
    if attemptAccepted .aposteriori p.envApost then some Mode.aposteriori else a1
  else a1

/-- Claim C4: `verify_alignment` restores the working directory on every
exit path — normal return, early null return during a-posteriori alignment,
and any raised exception (including the `NameError` escaping the `finally`
clause itself): the caller observes the same cwd after the call as before. -/
theorem verify_alignment_restores_cwd :
    ∀ mode force env fs,
      ((verify_alignment mode force env fs).2).cwd = fs.cwd := by
  intro mode force env fs
  cases h : env.stagingRaises <;> simp [verify_alignment, verifyTry, h]

/-- Claim C9: when staging (temp-directory creation or input copying) raises
before `parent_dir` is bound at line 570, the `finally` clause raises
`NameError` on the unbound local, replacing the original staging exception
seen by the caller, while the working directory — never having been changed —
and the rest of the observable state are untouched. -/
theorem verify_alignment_staging_nameError :
    ∀ (mode : Mode) (force : Bool) (env : AttemptEnv) (fs : FS),
      (verifyTry mode force { env with stagingRaises := true } fs).result
          = VerifyResult.raised Exc.osError ∧
      verify_alignment mode force { env with stagingRaises := true } fs
          = (VerifyResult.raised Exc.nameError, fs) := by
  intro mode force env fs
  constructor <;> simp [verify_alignment, verifyTry]

/-- The acceptance outcome of the scoring block alone (lines 650-676). -/
def scoreAccepted (mode : Mode) (env : AttemptEnv) : Bool :=
  env.focusOK && (decide (mode = Mode.pipelineDefault) || decide (env.simIndx ≤ 1))

/-- Helper: `run_driz` plus scoring never produces the null result. -/
theorem drizToAccept_ne_null (mode : Mode) (force : Bool) (env : AttemptEnv)
    (fs : FS) : (drizToAccept mode force env fs).1 ≠ VerifyResult.nullResult := by
  cases hd : env.drizRaises <;> simp [drizToAccept, hd]

/-- Helper: without a drizzle failure the scoring block returns the focus
dicts and copies products back exactly when `scoreAccepted` holds. -/
theorem drizToAccept_spec (mode : Mode) (force : Bool) (env : AttemptEnv)
    (fs : FS) (hd : env.drizRaises = false) :
    (drizToAccept mode force env fs).1 = VerifyResult.focusDicts mode ∧
    (drizToAccept mode force env fs).2.parentProducts
      = (if scoreAccepted mode env then some mode else fs.parentProducts) := by
  constructor
  · simp [drizToAccept, hd]
  · by_cases hm : mode = Mode.pipelineDefault
    · cases hf : env.focusOK <;>
        simp [drizToAccept, scoreAccepted, addTrl, hd, hm, hf]
    · by_cases hsim : (1 : ℚ) < env.simIndx
      · have hle : ¬ env.simIndx ≤ 1 := not_le.mpr hsim
        cases hf : env.focusOK <;>
          simp [drizToAccept, scoreAccepted, addTrl, hd, hm, hsim, hle, hf]
      · have hle : env.simIndx ≤ 1 := not_lt.mp hsim
        cases hf : env.focusOK <;>
          simp [drizToAccept, scoreAccepted, addTrl, hd, hm, hsim, hle, hf]

/-- Helper: the row loop succeeds on an all-zero-status table, returning the
accumulated success messages. -/
theorem alignLoop_eq_some (rows : List AlignRow) :
    ∀ acc, rows.all (fun r => decide (r.status = 0)) = true →
      alignLoop rows acc = some (acc ++ rows.map successAlignMsg) := by
  induction rows with
  | nil => intro acc _; simp [alignLoop]
  | cons r rs ih =>
    intro acc hall
    simp only [List.all_cons, Bool.and_eq_true, decide_eq_true_eq] at hall
    rw [alignLoop, if_pos hall.1, ih (acc ++ [successAlignMsg r]) (by
      simpa using hall.2)]
    simp

/-- Helper: the row loop fails as soon as some row has nonzero status. -/
theorem alignLoop_eq_none (rows : List AlignRow) :
    ∀ acc, rows.all (fun r => decide (r.status = 0)) = false →
      alignLoop rows acc = none := by
  induction rows with
  | nil => intro acc h; simp at h
  | cons r rs ih =>
    intro acc hall
    simp only [List.all_cons, Bool.and_eq_false_iff] at hall
    by_cases h0 : r.status = 0
    · rw [alignLoop, if_pos h0]
      refine ih _ ?_
      rcases hall with h | h
      · simp [h0] at h
      · exact h
    · rw [alignLoop, if_neg h0]

/-- Helper: with the a-posteriori gate satisfied, the acceptance predicate of
the attempt coincides with the scoring outcome. -/
theorem attemptAccepted_eq_score (mode : Mode) (env : AttemptEnv)
    (ha : mode = Mode.aposteriori → alignStepOK env = true) :
    attemptAccepted mode env = scoreAccepted mode env := by
  cases mode with
  | pipelineDefault => simp [attemptAccepted, scoreAccepted]
  | apriori => simp [attemptAccepted, scoreAccepted]
  | aposteriori => simp [attemptAccepted, scoreAccepted, ha rfl]

/-- Helper: whenever `verify_alignment` does not raise, the products in the
parent directory are updated exactly when the attempt was accepted. -/
theorem verify_parent_eq (mode : Mode) (force : Bool) (env : AttemptEnv)
    (fs : FS)
    (h : ∀ e, (verify_alignment mode force env fs).1 ≠ VerifyResult.raised e) :
    (verify_alignment mode force env fs).2.parentProducts
      = (if attemptAccepted mode env then some mode else fs.parentProducts) := by
  cases hs : env.stagingRaises
  · cases hd : env.drizRaises
    · -- no drizzle failure
      cases mode with
      | pipelineDefault =>
        have := (drizToAccept_spec .pipelineDefault force env
          { fs with cwd := tmpdirOf .pipelineDefault } hd).2
        rw [attemptAccepted_eq_score _ _ (by intro hcc; cases hcc)]
        simpa [verify_alignment, verifyTry, verifyBody, hs] using this
      | apriori =>
        cases hw : env.wcsRaises
        · have := (drizToAccept_spec .apriori force env
            { fs with cwd := tmpdirOf .apriori } hd).2
          rw [attemptAccepted_eq_score _ _ (by intro hcc; cases hcc)]
          simpa [verify_alignment, verifyTry, verifyBody, hs, hw] using this
        · exfalso
          exact h .wcsError (by simp [verify_alignment, verifyTry, verifyBody, hs, hw])
      | aposteriori =>
        cases hao : env.alignOutcome with
        | none =>
          have hacc : attemptAccepted .aposteriori env = false := by
            simp [attemptAccepted, alignStepOK, hao]
          simp [verify_alignment, verifyTry, verifyBody, hs, hao, hacc, addTrl]
        | some rows =>
          cases hall : rows.all (fun r => decide (r.status = 0))
          · have hloop := alignLoop_eq_none rows [] hall
            have hacc : attemptAccepted .aposteriori env = false := by
              simp [attemptAccepted, alignStepOK, hao, hall]
            simp [verify_alignment, verifyTry, verifyBody, hs, hao, hloop, hacc,
                  addTrl]
          · have hloop := alignLoop_eq_some rows [] hall
            have hgate : alignStepOK env = true := by simp [alignStepOK, hao, hall]
            have hspec := (drizToAccept_spec .aposteriori force env
              (addTrl (addTrl (addTrl (addTrl
                 { fs with cwd := tmpdirOf .aposteriori }
                 ["Align_to_GAIA started"]) ["perform_align log"])
                 ([] ++ rows.map successAlignMsg))
                ((if env.hasFlc ∧ rows ≠ [] then rows.map headerletMsgOf else [])
                  ++ ["Align_to_GAIA completed"])) hd).2
            rw [attemptAccepted_eq_score _ _ (fun _ => hgate)]
            simpa [verify_alignment, verifyTry, verifyBody, hs, hao, hloop,
                   addTrl] using hspec
    · -- the drizzle step raises whenever it is reached
      cases mode with
      | pipelineDefault =>
        exfalso
        exact h .drizError
          (by simp [verify_alignment, verifyTry, verifyBody, drizToAccept, hs, hd])
      | apriori =>
        cases hw : env.wcsRaises
        · exfalso
          exact h .drizError (by
            simp [verify_alignment, verifyTry, verifyBody, drizToAccept, hs, hw, hd])
        · exfalso
          exact h .wcsError (by
            simp [verify_alignment, verifyTry, verifyBody, hs, hw])
      | aposteriori =>
        cases hao : env.alignOutcome with
        | none =>
          have hacc : attemptAccepted .aposteriori env = false := by
            simp [attemptAccepted, alignStepOK, hao]
          simp [verify_alignment, verifyTry, verifyBody, hs, hao, hacc, addTrl]
        | some rows =>
          cases hall : rows.all (fun r => decide (r.status = 0))
          · have hloop := alignLoop_eq_none rows [] hall
            have hacc : attemptAccepted .aposteriori env = false := by
              simp [attemptAccepted, alignStepOK, hao, hall]
            simp [verify_alignment, verifyTry, verifyBody, hs, hao, hloop, hacc,
                  addTrl]
          · exfalso
            have hloop := alignLoop_eq_some rows [] hall
            exact h .drizError (by
              simp [verify_alignment, verifyTry, verifyBody, drizToAccept, hs,
                    hao, hloop, hd, addTrl])
  · exfalso
    exact h .nameError (by simp [verify_alignment, verifyTry, hs])

/-- Helper: a non-raised outcome excludes every raised value. -/
theorem isRaised_false_ne (r : VerifyResult) (h : isRaised r = false) :
    ∀ e, r ≠ VerifyResult.raised e := by
  cases r <;> simp_all [isRaised]

/-- Helper: the null result arises only from a failed a-posteriori catalog
alignment (a bad per-file status or an aligner exception). -/
theorem verify_null_imp (mode : Mode) (force : Bool) (env : AttemptEnv)
    (fs : FS)
    (h : (verify_alignment mode force env fs).1 = VerifyResult.nullResult) :
    mode = Mode.aposteriori ∧ alignStepOK env = false := by
  cases hs : env.stagingRaises
  · cases mode with
    | pipelineDefault =>
      exfalso
      revert h
      simp only [verify_alignment, verifyTry, verifyBody, hs]
      cases hd : env.drizRaises <;> simp [drizToAccept, hd]
    | apriori =>
      exfalso
      revert h
      cases hw : env.wcsRaises
      · simp only [verify_alignment, verifyTry, verifyBody, hs, hw]
        cases hd : env.drizRaises <;> simp [drizToAccept, hd]
      · simp [verify_alignment, verifyTry, verifyBody, hs, hw]
    | aposteriori =>
      refine ⟨rfl, ?_⟩
      cases hao : env.alignOutcome with
      | none => simp [alignStepOK, hao]
      | some rows =>
        cases hall : rows.all (fun r => decide (r.status = 0))
        · simp [alignStepOK, hao, hall]
        · exfalso
          revert h
          have hloop := alignLoop_eq_some rows [] hall
          simp only [verify_alignment, verifyTry, verifyBody, hs, hao, hloop]
          cases hd : env.drizRaises <;> simp [drizToAccept, hd, addTrl]
  · exfalso
    revert h
    simp [verify_alignment, verifyTry, hs]

/-- Helper: when no collaborator raises and the a-posteriori gate passes, the
attempt returns its focus dicts and updates the parent products exactly when
it was accepted. -/
theorem verify_ok (mode : Mode) (force : Bool) (env : AttemptEnv) (fs : FS)
    (hs : env.stagingRaises = false) (hw : env.wcsRaises = false)
    (hd : env.drizRaises = false)
    (ha : mode = Mode.aposteriori → alignStepOK env = true) :
    (verify_alignment mode force env fs).1 = VerifyResult.focusDicts mode ∧
    (verify_alignment mode force env fs).2.parentProducts
      = (if attemptAccepted mode env then some mode else fs.parentProducts) := by
  have hres : (verify_alignment mode force env fs).1
      = VerifyResult.focusDicts mode := by
    cases mode with
    | pipelineDefault =>
      have := (drizToAccept_spec .pipelineDefault force env
        { fs with cwd := tmpdirOf .pipelineDefault } hd).1
      simpa [verify_alignment, verifyTry, verifyBody, hs] using this
    | apriori =>
      have := (drizToAccept_spec .apriori force env
        { fs with cwd := tmpdirOf .apriori } hd).1
      simpa [verify_alignment, verifyTry, verifyBody, hs, hw] using this
    | aposteriori =>
      have hgate := ha rfl
      cases hao : env.alignOutcome with
      | none => simp [alignStepOK, hao] at hgate
      | some rows =>
        have hall : rows.all (fun r => decide (r.status = 0)) = true := by
          simpa [alignStepOK, hao] using hgate
        have hloop := alignLoop_eq_some rows [] hall
        simp only [verify_alignment, verifyTry, verifyBody, hs, hao, hloop]
        cases hd2 : env.drizRaises
        · simp [drizToAccept, hd2]
        · rw [hd2] at hd; cases hd
  refine ⟨hres, verify_parent_eq mode force env fs ?_⟩
  intro e he
  rw [hres] at he
  cases he

/-- Concrete parent working directory for the worked examples. -/
def fsP : FS := { cwd := "parent", parentProducts := none, trailer := [] }

/-- Collaborator environment of a fully successful attempt. -/
def envAccept : AttemptEnv :=
  { stagingRaises := false, wcsRaises := false, alignOutcome := some [],
    hasFlc := false, drizRaises := false, focusOK := true, simIndx := 0 }

/-- Collaborator environment of an attempt whose focus verification fails. -/
def envRejFocus : AttemptEnv :=
  { stagingRaises := false, wcsRaises := false, alignOutcome := some [],
    hasFlc := false, drizRaises := false, focusOK := false, simIndx := 0 }

/-- A run whose pipeline-default attempt succeeds and whose a-priori attempt
fails focus verification, with a-posteriori alignment disabled. -/
def pCex : ProcEnv :=
  { envDefault := envAccept, envApriori := envRejFocus, envApost := envAccept,
    align_to_gaia := false, force_alignment := false }

/-- Counterexample to claim C1 as stated: a rejected (focus-failing) a-priori
attempt does NOT make `verify_alignment` return a null/falsy result — it
returns the truthy focus-dict list, which the caller adopts as `align_dicts` —
even though, as the last conjunct shows, the persisted products do remain the
pipeline-default ones. -/
theorem verify_rejected_returns_truthy_cex :
    attemptAccepted .apriori envRejFocus = false ∧
    (verify_alignment .apriori false envRejFocus fsP).1
        = VerifyResult.focusDicts .apriori ∧
    (verify_alignment .apriori false envRejFocus fsP).1
        ≠ VerifyResult.nullResult ∧
    (processAttempts pCex fsP).map (fun out => out.1)
        = some (some Mode.apriori) ∧
    (processAttempts pCex fsP).map (fun out => out.2.parentProducts)
        = some (some Mode.pipelineDefault) := by
  decide

/-- Claim C1 (amended): after a `process` run that returns, the products
persisted in the parent directory are those of the last attempt whose
verification succeeded (focus success and, for non-default modes, similarity
within threshold), and a rejected attempt leaves the previously accepted
products authoritative; however, `verify_alignment` returns a null result
only for a-posteriori catalog-alignment failures — an attempt rejected by
focus or similarity returns its (truthy) focus dicts while still copying
nothing back. -/
theorem process_persists_last_accepted :
    (∀ p fs out, processAttempts p fs = some out →
        out.2.parentProducts = lastAcceptedTag p fs.parentProducts) ∧
    (∀ (mode : Mode) (force : Bool) (env : AttemptEnv) (fs : FS),
        (verify_alignment mode force env fs).1 = VerifyResult.nullResult →
        mode = Mode.aposteriori ∧ alignStepOK env = false) ∧
    (∀ (mode : Mode) (force : Bool) (env : AttemptEnv) (fs : FS),
        env.stagingRaises = false → env.wcsRaises = false →
        env.drizRaises = false →
        (mode = Mode.aposteriori → alignStepOK env = true) →
        attemptAccepted mode env = false →
        (verify_alignment mode force env fs).1 = VerifyResult.focusDicts mode ∧
        (verify_alignment mode force env fs).2.parentProducts
          = fs.parentProducts) := by
  refine ⟨?_, ?_, ?_⟩
  · intro p fs out h
    unfold processAttempts at h
    by_cases h0 : isRaised
        (verify_alignment .pipelineDefault p.force_alignment p.envDefault fs).1
          = true
    · simp [h0] at h
    · rw [Bool.not_eq_true] at h0
      have e0 := verify_parent_eq .pipelineDefault p.force_alignment
        p.envDefault fs (isRaised_false_ne _ h0)
      by_cases h1 : isRaised
          (verify_alignment .apriori p.force_alignment p.envApriori
            (verify_alignment .pipelineDefault p.force_alignment
              p.envDefault fs).2).1 = true
      · simp [h0, h1] at h
      · rw [Bool.not_eq_true] at h1
        have e1 := verify_parent_eq .apriori p.force_alignment p.envApriori
          (verify_alignment .pipelineDefault p.force_alignment p.envDefault fs).2
          (isRaised_false_ne _ h1)
        by_cases hg : p.align_to_gaia = true
        · by_cases h2 : isRaised
              (verify_alignment .aposteriori p.force_alignment p.envApost
                (verify_alignment .apriori p.force_alignment p.envApriori
                  (verify_alignment .pipelineDefault p.force_alignment
                    p.envDefault fs).2).2).1 = true
          · simp [h0, h1, hg, h2] at h
          · rw [Bool.not_eq_true] at h2
            have e2 := verify_parent_eq .aposteriori p.force_alignment
              p.envApost
              (verify_alignment .apriori p.force_alignment p.envApriori
                (verify_alignment .pipelineDefault p.force_alignment
                  p.envDefault fs).2).2
              (isRaised_false_ne _ h2)
            simp only [h0, h1, hg, h2, if_true, if_false, Bool.false_eq_true,
              ite_false, ite_true] at h
            have hout := (Option.some.inj h).symm
            rw [hout]
            simp only [lastAcceptedTag, hg, if_true]
            rw [e2, e1, e0]
        · rw [Bool.not_eq_true] at hg
          simp only [h0, h1, hg, Bool.false_eq_true, if_false, ite_false,
            ite_true] at h
          have hout := (Option.some.inj h).symm
          rw [hout]
          simp only [lastAcceptedTag, hg, Bool.false_eq_true, if_false,
            ite_false]
          rw [e1, e0]
  · intro mode force env fs h
    exact verify_null_imp mode force env fs h
  · intro mode force env fs hs hw hd ha hacc
    have := verify_ok mode force env fs hs hw hd ha
    rw [hacc] at this
    simpa using this

/-- Witness for the amended C1, applying its third conjunct at the concrete
focus-failing a-priori attempt: the result is the truthy focus-dict value and
the parent products are untouched. -/
theorem process_persists_last_accepted_witness :
    (verify_alignment .apriori false envRejFocus fsP).1
        = VerifyResult.focusDicts .apriori ∧
    (verify_alignment .apriori false envRejFocus fsP).2.parentProducts
        = fsP.parentProducts :=
  process_persists_last_accepted.2.2 .apriori false envRejFocus fsP rfl rfl rfl
    (fun hcc => nomatch hcc) (by decide)

/-- Collaborator environment of a non-default attempt whose similarity index
exceeds the failure threshold: `compute_similarity` returns 2. -/
def envSimFail : AttemptEnv :=
  { stagingRaises := false, wcsRaises := false, alignOutcome := some [],
    hasFlc := false, drizRaises := false, focusOK := true, simIndx := 2 }

/-- Claim C2 at its failing input (similarity 2 > 1 with `force_alignment`
set): the code records the compromise warning in the trailer — announcing the
solution is being KEPT — but `alignment_verified` stays `False`, so NOTHING
is copied back to the parent directory: the attempt is not actually accepted,
contradicting both the claim and the message of the code itself.  The
non-forced run behaves identically apart from the message. -/
theorem force_similarity_not_kept_demo :
    attemptAccepted .apriori envSimFail = false ∧
    (verify_alignment .apriori true envSimFail fsP).2.parentProducts = none ∧
    keepWarningMsg ∈ (verify_alignment .apriori true envSimFail fsP).2.trailer ∧
    (verify_alignment .apriori true envSimFail fsP).1
        = VerifyResult.focusDicts .apriori ∧
    (verify_alignment .apriori false envSimFail fsP).2.parentProducts = none ∧
    revertMsg ∈ (verify_alignment .apriori false envSimFail fsP).2.trailer := by
  decide

/-- A catalog-alignment table with one failing row (`status = 1`). -/
def rowFail : AlignRow :=
  { imageName := "j8cw03f4q_flc.fits", status := 1, catalog := "GAIADR2",
    headerletFile := "None" }

/-- Environment of an a-posteriori attempt whose aligner reports one failing
row. -/
def envRowFail : AttemptEnv :=
  { stagingRaises := false, wcsRaises := false, alignOutcome := some [rowFail],
    hasFlc := false, drizRaises := false, focusOK := true, simIndx := 0 }

/-- Environment of an a-posteriori attempt whose aligner raises. -/
def envAlignExc : AttemptEnv :=
  { stagingRaises := false, wcsRaises := false, alignOutcome := none,
    hasFlc := false, drizRaises := false, focusOK := true, simIndx := 0 }

/-- Claim C3 at its failing input (one row with `status = 1`):
`verify_alignment` does return null immediately and copies nothing back, but
the final trailer holds ONLY the `Align_to_GAIA started` marker — the
`Could not align ...` line is appended to the local `trlmsg` and discarded by
the early `return None`, never reaching the trailer file.  The
exception path, by contrast, does log its message before returning null. -/
theorem aposteriori_status_fail_demo :
    (verify_alignment .aposteriori false envRowFail fsP)
        = (VerifyResult.nullResult,
           { fsP with trailer := fsP.trailer ++ ["Align_to_GAIA started"] }) ∧
    couldNotAlignMsg rowFail.imageName
        ∉ (verify_alignment .aposteriori false envRowFail fsP).2.trailer ∧
    (verify_alignment .aposteriori false envRowFail fsP).2.parentProducts
        = none ∧
    (verify_alignment .aposteriori false envAlignExc fsP).1
        = VerifyResult.nullResult ∧
    (verify_alignment .aposteriori false envAlignExc fsP).2.parentProducts
        = none ∧
    "EXCEPTION encountered in alignimages..."
        ∈ (verify_alignment .aposteriori false envAlignExc fsP).2.trailer := by
  decide

end DrizzleSpec
